import Mathlib

/-!
Verification of the content discovery / extraction / scoring pipeline of the
`linux-spider-webscaning` repository against its natural-language specification.

The Python source is shallowly embedded: pure logic (URL classification,
sampling, schema validation, scoring, summary aggregation) is translated into
executable Lean definitions; network fetches and HTML/JSON parsing are
abstracted into explicit input values (a parsed `Soup` record for BeautifulSoup
queries, a `Json` tree for parsed JSON-LD blocks, lists of URL strings for
discovery results), with each abstraction documented at its definition.
Python floats in the scoring code only ever hold exact small decimals, so they
are embedded as rationals; Python `//` on non-negative ints is `Nat` division.
-/

/-! ## Regex-pattern embedding for `URLSampler` (src/scanner/content/url_sampler.py)

The sampler's pattern tables use only three regex features: case-insensitive
literal substring search, `\d` digit classes (`/\d{4}/\d{2}/`, `-p-\d+`), and
an end-anchored extension alternation `\.(jpg|...)$`.  We embed exactly these:
a token is a concrete character or a digit class, and a pattern is searched at
every position of the lowercased URL (mirroring `re.search` with `re.I`;
literal pattern characters are stored lowercased). -/

inductive MTok
  | ch : Char → MTok
  | dig : MTok
deriving DecidableEq, Repr

def mtokMatches : MTok → Char → Bool
  | MTok.ch c, d => c == d
  | MTok.dig, d => d.isDigit

/-- Does the token pattern match a prefix of the character list? -/
def matchesHere : List MTok → List Char → Bool
  | [], _ => true
  | _ :: _, [] => false
  | t :: ts, c :: cs => mtokMatches t c && matchesHere ts cs

/-- `re.search` over a character list: does the pattern match at some position? -/
def searchToks (p : List MTok) : List Char → Bool
  | [] => matchesHere p []
  | c :: cs => matchesHere p (c :: cs) || searchToks p cs

def litToks (s : String) : List MTok := s.toList.map MTok.ch

/-- One compiled URL pattern of `URLSampler._compile_patterns`. -/
inductive UPat
  | lit : String → UPat
  | toks : List MTok → UPat
  | extEnd : List String → UPat
deriving Repr

def lowerChars (cs : List Char) : List Char := cs.map Char.toLower

/-- Is `suf` a suffix of `hay` (both as character lists)? -/
def sufMatches (hay suf : List Char) : Bool :=
  matchesHere (suf.reverse.map MTok.ch) hay.reverse

/-- `pattern.search(url)` with `re.I`: literals are matched case-insensitively
by lowercasing the URL (pattern literals are written lowercase); `extEnd`
embeds the end-anchored `\.(e1|...|en)$` alternation. -/
def upatMatches (url : String) (p : UPat) : Bool :=
  let l := lowerChars url.toList
  match p with
  | UPat.lit s => searchToks (litToks s) l
  | UPat.toks ts => searchToks ts l
  | UPat.extEnd exts => exts.any (fun e => sufMatches l ("." ++ e).toList)

def matchesAnyPat (pats : List UPat) (url : String) : Bool :=
  pats.any (upatMatches url)

/-- `URLSampler.ARTICLE_PATTERNS`. -/
def ARTICLE_PATTERNS : List UPat := [
  UPat.lit "/blog/",
  UPat.lit "/news/",
  UPat.lit "/article/",
  UPat.lit "/post/",
  UPat.toks [MTok.ch '/', MTok.dig, MTok.dig, MTok.dig, MTok.dig,
             MTok.ch '/', MTok.dig, MTok.dig, MTok.ch '/'],
  UPat.toks [MTok.ch '/', MTok.dig, MTok.dig, MTok.dig, MTok.dig,
             MTok.ch '/', MTok.dig, MTok.dig,
             MTok.ch '/', MTok.dig, MTok.dig, MTok.ch '/'],
  UPat.lit "-news",
  UPat.lit "-article",
  UPat.lit "/p/"]

/-- `URLSampler.PRODUCT_PATTERNS`. -/
def PRODUCT_PATTERNS : List UPat := [
  UPat.lit "/product/",
  UPat.lit "/products/",
  UPat.lit "/shop/",
  UPat.lit "/store/",
  UPat.lit "/item/",
  UPat.lit "/p/",
  UPat.lit "/pd/",
  UPat.lit "/buy/",
  UPat.lit "/goods/",
  UPat.toks [MTok.ch '-', MTok.ch 'p', MTok.ch '-', MTok.dig],
  UPat.lit "/catalog/"]

/-- `URLSampler.CATEGORY_PATTERNS`. -/
def CATEGORY_PATTERNS : List UPat := [
  UPat.lit "/category/",
  UPat.lit "/categories/",
  UPat.lit "/cat/",
  UPat.lit "/c/",
  UPat.lit "/collection/",
  UPat.lit "/collections/",
  UPat.lit "/tag/",
  UPat.lit "/tags/",
  UPat.lit "/topic/",
  UPat.lit "/archive/"]

/-- `URLSampler.PAGE_PATTERNS`. -/
def PAGE_PATTERNS : List UPat := [
  UPat.lit "/about",
  UPat.lit "/contact",
  UPat.lit "/faq",
  UPat.lit "/help",
  UPat.lit "/terms",
  UPat.lit "/privacy",
  UPat.lit "/policy",
  UPat.lit "/page/"]

/-- `URLSampler.SKIP_PATTERNS`. -/
def SKIP_PATTERNS : List UPat := [
  UPat.lit "/cdn-cgi/",
  UPat.lit "/wp-content/",
  UPat.lit "/wp-includes/",
  UPat.lit "/wp-admin/",
  UPat.lit "/admin/",
  UPat.lit "/login",
  UPat.lit "/logout",
  UPat.lit "/register",
  UPat.lit "/cart",
  UPat.lit "/checkout",
  UPat.lit "/account",
  UPat.extEnd ["jpg", "jpeg", "png", "gif", "svg", "css", "js", "pdf",
               "zip", "woff", "woff2"],
  UPat.lit "/feed/",
  UPat.lit "/rss",
  UPat.lit "/sitemap",
  UPat.lit "#",
  UPat.lit "?"]

/-- `URLType` enum of url_sampler.py. -/
inductive URLType
  | HOMEPAGE
  | ARTICLE
  | PRODUCT
  | CATEGORY
  | PAGE
  | OTHER
deriving DecidableEq, Repr

/-- `SampledURL` dataclass of url_sampler.py. -/
structure SampledURL where
  url : String
  url_type : URLType
  depth : Nat
  source : String
  priority : ℚ
deriving DecidableEq, Repr

/-- `SamplerResult` dataclass of url_sampler.py. -/
structure SamplerResult where
  homepage : Option String := none
  articles : List SampledURL := []
  products : List SampledURL := []
  categories : List SampledURL := []
  pages : List SampledURL := []
  all_urls : List SampledURL := []
deriving Repr

/-- `URLSampler._classify_url`: skip patterns first, then product, article,
category, page, in source order; first match wins. -/
def classify_url (url : String) : URLType :=
  if matchesAnyPat SKIP_PATTERNS url then URLType.OTHER
  else if matchesAnyPat PRODUCT_PATTERNS url then URLType.PRODUCT
  else if matchesAnyPat ARTICLE_PATTERNS url then URLType.ARTICLE
  else if matchesAnyPat CATEGORY_PATTERNS url then URLType.CATEGORY
  else if matchesAnyPat PAGE_PATTERNS url then URLType.PAGE
  else URLType.OTHER

/-- `URLSampler._classify_and_add`: skip already-seen URLs, mark the URL seen,
classify it (unless a type is forced, as for RSS items), drop `OTHER`, and
append a `SampledURL` to `all_urls` and the per-type list.  The state is the
`(result, seen-set)` pair; the seen set is embedded as a list of URL strings. -/
def classify_and_add (url : String) (st : SamplerResult × List String)
    (source : String) (force_type : Option URLType)
    (depth : Nat) (priority : ℚ) : SamplerResult × List String :=
  let r := st.1
  let seen := st.2
  if url ∈ seen then st
  else
    let seen := url :: seen
    let t := force_type.getD (classify_url url)
    if t = URLType.OTHER then (r, seen)
    else
      let s : SampledURL := ⟨url, t, depth, source, priority⟩
      let r := { r with all_urls := r.all_urls ++ [s] }
      let r :=
        match t with
        | URLType.ARTICLE => { r with articles := r.articles ++ [s] }
        | URLType.PRODUCT => { r with products := r.products ++ [s] }
        | URLType.CATEGORY => { r with categories := r.categories ++ [s] }
        | URLType.PAGE => { r with pages := r.pages ++ [s] }
        | _ => r
      (r, seen)

/-- The sitemap loop of `URLSampler.sample`: break once
`len(result.all_urls) >= max_per_type * 5`, otherwise classify-and-add with
source `sitemap`. -/
def process_sitemap_urls (max_per_type : Nat) :
    List String → SamplerResult × List String → SamplerResult × List String
  | [], st => st
  | url :: rest, st =>
    if st.1.all_urls.length ≥ max_per_type * 5 then st
    else process_sitemap_urls max_per_type rest
      (classify_and_add url st "sitemap" none 0 (1/2))

/-- The RSS loop of `URLSampler.sample`: break once
`len(result.articles) >= max_per_type`; RSS URLs are force-typed `ARTICLE`. -/
def process_rss_urls (max_per_type : Nat) :
    List String → SamplerResult × List String → SamplerResult × List String
  | [], st => st
  | url :: rest, st =>
    if st.1.articles.length ≥ max_per_type then st
    else process_rss_urls max_per_type rest
      (classify_and_add url st "rss" (some URLType.ARTICLE) 0 (1/2))

/-- Stable insertion of one element into a list sorted by `priority`
descending: passes over elements whose priority is not smaller. -/
def insertDesc (x : SampledURL) : List SampledURL → List SampledURL
  | [] => [x]
  | y :: ys => if x.priority < y.priority then x :: y :: ys else y :: insertDesc x ys

/-- `list.sort(key=lambda x: x.priority, reverse=True)`: a stable sort by
priority descending (Python's `list.sort` is stable; a stable insertion sort
computes the same list). -/
def sortByPriorityDesc : List SampledURL → List SampledURL
  | [] => []
  | x :: xs => insertDesc x (sortByPriorityDesc xs)

/-- `URLSampler.sample`.  The one network interaction, `_crawl_for_urls`
(homepage fetch plus `<a href>` harvesting), is abstracted by the explicit
input `crawled_urls`: the list of same-domain URLs the crawl would discover.
It is consulted exactly when the source does (articles or products still
under quota). -/
def sample (max_per_type : Nat) (base_url : String)
    (sitemap_urls rss_urls crawled_urls : List String) : SamplerResult :=
  let st0 : SamplerResult × List String := ({ homepage := some base_url }, [])
  let st1 := process_sitemap_urls max_per_type sitemap_urls st0
  let st2 := process_rss_urls max_per_type rss_urls st1
  let st3 :=
    if st2.1.articles.length < max_per_type ∨ st2.1.products.length < max_per_type then
      crawled_urls.foldl (fun st url => classify_and_add url st "crawl" none 0 (1/2)) st2
    else st2
  let r := st3.1
  { r with
    articles := (sortByPriorityDesc r.articles).take max_per_type,
    products := (sortByPriorityDesc r.products).take max_per_type,
    categories := (sortByPriorityDesc r.categories).take max_per_type,
    pages := (sortByPriorityDesc r.pages).take max_per_type }

/-! ## JSON embedding for the schema validator (src/scanner/seo/schema_validator.py)

Parsed JSON-LD blocks are embedded as a `Json` tree (Python numbers as
rationals).  `SchemaValidator.validate` is embedded from the point after
`_extract_schemas`: it takes the list of extracted (and `@graph`-flattened)
JSON-LD blocks; the HTML-level extraction (extruct / BeautifulSoup plus
`json.loads`) is the abstracted input boundary.  `str()` rendering of
non-string values, needed only for the `@type` bookkeeping string and two
substring checks, is approximated by `pyStr` below. -/

inductive Json
  | null
  | bool (b : Bool)
  | num (q : ℚ)
  | str (s : String)
  | arr (xs : List Json)
  | obj (kvs : List (String × Json))

/-- Python truthiness of a JSON value. -/
def Json.truthy : Json → Bool
  | Json.null => false
  | Json.bool b => b
  | Json.num q => !(q == 0)
  | Json.str s => !(s == "")
  | Json.arr xs => !xs.isEmpty
  | Json.obj kvs => !kvs.isEmpty

/-- `dict.get(k)`: `none` when the value is not a dict or the key is absent. -/
def Json.get : Json → String → Option Json
  | Json.obj kvs, k => (kvs.find? (fun kv => kv.1 == k)).map Prod.snd
  | _, _ => none

/-- `k in schema and bool(schema[k])`, i.e. the negation of the source's
pervasive `k not in schema or not schema[k]` missing-field test. -/
def jTruthyField (j : Json) (k : String) : Bool :=
  match j.get k with
  | some v => v.truthy
  | none => false

mutual

/-- A repr-style rendering used by `pyStr` (Python `str()`) for non-string
values; only ever consumed by substring checks and the `@type` bookkeeping
string, so the exact float formatting is immaterial. -/
def jsonRepr : Json → String
  | Json.null => "None"
  | Json.bool true => "True"
  | Json.bool false => "False"
  | Json.num q => toString q
  | Json.str s => "\x27" ++ s ++ "\x27"
  | Json.arr xs => "[" ++ jsonReprList xs ++ "]"
  | Json.obj kvs => "\x7b" ++ jsonReprObj kvs ++ "\x7d"

def jsonReprList : List Json → String
  | [] => ""
  | [x] => jsonRepr x
  | x :: y :: xs => jsonRepr x ++ ", " ++ jsonReprList (y :: xs)

def jsonReprObj : List (String × Json) → String
  | [] => ""
  | [(k, v)] => "\x27" ++ k ++ "\x27: " ++ jsonRepr v
  | (k, v) :: kv :: kvs =>
    "\x27" ++ k ++ "\x27: " ++ jsonRepr v ++ ", " ++ jsonReprObj (kv :: kvs)

end

/-- Python `str(value)`. -/
def pyStr (j : Json) : String :=
  match j with
  | Json.str s => s
  | v => jsonRepr v

/-- Case-sensitive substring containment (`needle in haystack` on strings). -/
def strContainsSub (hay needle : String) : Bool :=
  searchToks (litToks needle) hay.toList

/-- `IssueSeverity` enum of schema_validator.py. -/
inductive IssueSeverity
  | ERROR
  | WARNING
  | INFO
deriving DecidableEq, Repr

/-- `SchemaIssue` dataclass of schema_validator.py. -/
structure SchemaIssue where
  severity : IssueSeverity
  schema_type : String
  field : String
  message : String
  suggestion : String
deriving DecidableEq, Repr

/-- `SchemaValidationResult` dataclass of schema_validator.py. -/
structure SchemaValidationResult where
  schemas_found : List String := []
  total_schemas : Nat := 0
  errors : List SchemaIssue := []
  warnings : List SchemaIssue := []
  info : List SchemaIssue := []
  coverage_score : ℚ := 0
  article_schema_valid : Bool := false
  product_schema_valid : Bool := false
  breadcrumb_present : Bool := false
  organization_present : Bool := false
  website_present : Bool := false
deriving DecidableEq, Repr

namespace SchemaValidator

def ARTICLE_REQUIRED : List String := ["headline", "datePublished", "author"]
def ARTICLE_RECOMMENDED : List String := ["mainEntityOfPage", "dateModified", "image", "publisher"]
def PRODUCT_REQUIRED : List String := ["name"]
def PRODUCT_OFFER_REQUIRED : List String := ["price", "priceCurrency", "availability"]
def PRODUCT_RECOMMENDED : List String := ["description", "image", "sku", "brand"]
def ORGANIZATION_REQUIRED : List String := ["name"]
def ORGANIZATION_RECOMMENDED : List String := ["url", "logo", "contactPoint", "sameAs"]
def WEBSITE_REQUIRED : List String := ["name", "url"]
def WEBSITE_RECOMMENDED : List String := ["potentialAction"]
def ARTICLE_TYPES : List String :=
  ["Article", "NewsArticle", "BlogPosting", "TechArticle", "ScholarlyArticle"]

/-- `SchemaValidator._get_schema_type`: `@type` (first element when a list),
defaulting to `Unknown`; a non-string value is rendered with `pyStr` (Python
keeps the raw object, which then matches no validator name). -/
def get_schema_type (schema : Json) : String :=
  match schema.get "@type" with
  | none => "Unknown"
  | some (Json.str s) => s
  | some (Json.arr []) => "Unknown"
  | some (Json.arr (x :: _)) => pyStr x
  | some v => pyStr v

/-- The fields of `fields` failing the `field not in schema or not
schema[field]` presence test, in source order. -/
def missingFields (schema : Json) (fields : List String) : List String :=
  fields.filter (fun f => !jTruthyField schema f)

def missingRequiredIssue (schema_type f : String) : SchemaIssue :=
  ⟨IssueSeverity.ERROR, schema_type, f,
    "Missing required field: " ++ f,
    "Add " ++ f ++ " to your " ++ schema_type ++ " schema"⟩

def missingRecommendedIssue (schema_type f suggestionTail : String) : SchemaIssue :=
  ⟨IssueSeverity.WARNING, schema_type, f,
    "Missing recommended field: " ++ f,
    "Consider adding " ++ f ++ " " ++ suggestionTail⟩

def missingOfferFieldIssue (f : String) : SchemaIssue :=
  ⟨IssueSeverity.ERROR, "Product", "offers." ++ f,
    "Missing required field in offers: " ++ f,
    "Add " ++ f ++ " to offers object"⟩

/-- `SchemaValidator._is_valid_date_format`: full match of the anchored
ISO-8601 regex, written as a hand-rolled parser over the character list. -/
def is_valid_date_format (s : String) : Bool :=
  let tz : List Char → Bool := fun cs =>
    match cs with
    | [] => true
    | ['Z'] => true
    | [sg, h1, h2, ':', m1, m2] =>
      (sg == '+' || sg == '-') && h1.isDigit && h2.isDigit && m1.isDigit && m2.isDigit
    | _ => false
  let timePart : List Char → Bool := fun cs =>
    match cs with
    | 'T' :: h1 :: h2 :: ':' :: m1 :: m2 :: rest =>
      h1.isDigit && h2.isDigit && m1.isDigit && m2.isDigit &&
      (match rest with
       | ':' :: s1 :: s2 :: rest2 => s1.isDigit && s2.isDigit && tz rest2
       | _ => tz rest)
    | _ => false
  match s.toList with
  | y1 :: y2 :: y3 :: y4 :: '-' :: m1 :: m2 :: '-' :: d1 :: d2 :: rest =>
    y1.isDigit && y2.isDigit && y3.isDigit && y4.isDigit &&
    m1.isDigit && m2.isDigit && d1.isDigit && d2.isDigit &&
    (rest.isEmpty || timePart rest)
  | _ => false

/-- `SchemaValidator._validate_article`. -/
def validate_article (schema : Json) (result : SchemaValidationResult) :
    SchemaValidationResult :=
  let schema_type := get_schema_type schema
  let missingReq := missingFields schema ARTICLE_REQUIRED
  let valid := missingReq.isEmpty
  let result : SchemaValidationResult := { result with
    errors := result.errors ++ missingReq.map (missingRequiredIssue schema_type),
    warnings := result.warnings ++
      (missingFields schema ARTICLE_RECOMMENDED).map
        (fun f => missingRecommendedIssue schema_type f "for better search visibility") }
  let result : SchemaValidationResult :=
    match schema.get "author" with
    | some author =>
      if author.truthy then
        match author with
        | Json.str _ => { result with warnings := result.warnings ++
            [⟨IssueSeverity.WARNING, schema_type, "author",
              "Author should be an object with @type and name",
              "Use \x7b\x22@type\x22: \x22Person\x22, \x22name\x22: \x22Author Name\x22\x7d"⟩] }
        | Json.obj _ =>
          if !jTruthyField author "name" then
            { result with errors := result.errors ++
              [⟨IssueSeverity.ERROR, schema_type, "author.name",
                "Author object missing name", "Add name property to author object"⟩] }
          else result
        | _ => result
      else result
    | none => result
  let result : SchemaValidationResult :=
    match schema.get "publisher" with
    | some publisher =>
      if publisher.truthy then
        match publisher with
        | Json.obj _ =>
          let result : SchemaValidationResult :=
            if !jTruthyField publisher "name" then
              { result with errors := result.errors ++
                [⟨IssueSeverity.ERROR, schema_type, "publisher.name",
                  "Publisher missing name", "Add name to publisher object"⟩] }
            else result
          if !jTruthyField publisher "logo" then
            { result with warnings := result.warnings ++
              [⟨IssueSeverity.WARNING, schema_type, "publisher.logo",
                "Publisher missing logo", "Add logo ImageObject to publisher"⟩] }
          else result
        | _ => result
      else result
    | none => result
  let result : SchemaValidationResult :=
    match schema.get "datePublished" with
    | some dp =>
      if dp.truthy && !is_valid_date_format (pyStr dp) then
        { result with warnings := result.warnings ++
          [⟨IssueSeverity.WARNING, schema_type, "datePublished",
            "Date format may not be optimal",
            "Use ISO 8601 format: YYYY-MM-DD or YYYY-MM-DDTHH:MM:SS+TZ"⟩] }
      else result
    | none => result
  { result with article_schema_valid := valid }

/-- `SchemaValidator._validate_product`.  A non-dict `offers` value (after the
`offers[0]` list unwrap) is treated as having no fields; on such inputs the
Python source would raise before reaching the field tests. -/
def validate_product (schema : Json) (result : SchemaValidationResult) :
    SchemaValidationResult :=
  let missingReq := missingFields schema PRODUCT_REQUIRED
  let valid := missingReq.isEmpty
  let result : SchemaValidationResult := { result with
    errors := result.errors ++ missingReq.map (missingRequiredIssue "Product") }
  let offersOpt := schema.get "offers"
  let offersTruthy : Bool :=
    match offersOpt with
    | some o => o.truthy
    | none => false
  let step : SchemaValidationResult × Bool :=
    if !offersTruthy then
      ({ result with errors := result.errors ++
        [⟨IssueSeverity.ERROR, "Product", "offers", "Missing offers object",
          "Add offers with price, currency, and availability"⟩] }, false)
    else
      let offers : Json :=
        match offersOpt with
        | some (Json.arr (x :: _)) => x
        | some (Json.arr []) => Json.obj []
        | some o => o
        | none => Json.obj []
      let missingOffer := missingFields offers PRODUCT_OFFER_REQUIRED
      let result : SchemaValidationResult := { result with
        errors := result.errors ++ missingOffer.map missingOfferFieldIssue }
      let availability : Json :=
        match offers.get "availability" with
        | some v => v
        | none => Json.str ""
      let result : SchemaValidationResult :=
        if availability.truthy && !strContainsSub (pyStr availability) "schema.org" then
          { result with warnings := result.warnings ++
            [⟨IssueSeverity.WARNING, "Product", "offers.availability",
              "Availability should use schema.org URL format",
              "Use https://schema.org/InStock or https://schema.org/OutOfStock"⟩] }
        else result
      (result, valid && missingOffer.isEmpty)
  let result := step.1
  let valid := step.2
  let recWarnings := (missingFields schema PRODUCT_RECOMMENDED).map
    (fun f => missingRecommendedIssue "Product" f "for better product visibility")
  let result : SchemaValidationResult :=
    { result with warnings := result.warnings ++ recWarnings }
  let result : SchemaValidationResult :=
    match schema.get "aggregateRating" with
    | some (Json.obj kvs) =>
      if !jTruthyField (Json.obj kvs) "ratingValue" then
        { result with warnings := result.warnings ++
          [⟨IssueSeverity.WARNING, "Product", "aggregateRating.ratingValue",
            "Missing ratingValue in aggregateRating",
            "Add ratingValue to show star ratings in search results"⟩] }
      else result
    | _ => result
  { result with product_schema_valid := valid }

/-- One step of the `enumerate(items)` loop in
`SchemaValidator._validate_breadcrumb`; non-dict items are skipped. -/
def breadcrumbItemStep (r : SchemaValidationResult) (p : Nat × Json) :
    SchemaValidationResult :=
  match p.2 with
  | Json.obj kvs =>
    let item := Json.obj kvs
    let i := p.1
    let r : SchemaValidationResult :=
      if !jTruthyField item "position" then
        { r with errors := r.errors ++
          [⟨IssueSeverity.ERROR, "BreadcrumbList",
            "itemListElement[" ++ toString i ++ "].position",
            "Breadcrumb item " ++ toString i ++ " missing position",
            "Add position number to each ListItem"⟩] }
      else r
    let inner : Json :=
      match item.get "item" with
      | some v => v
      | none => Json.obj []
    if !jTruthyField item "name" && !jTruthyField inner "name" then
      { r with warnings := r.warnings ++
        [⟨IssueSeverity.WARNING, "BreadcrumbList",
          "itemListElement[" ++ toString i ++ "].name",
          "Breadcrumb item " ++ toString i ++ " missing name",
          "Add name to each ListItem"⟩] }
    else r
  | _ => r

/-- `SchemaValidator._validate_breadcrumb`.  A truthy non-list
`itemListElement` iterates over keys/characters in Python, none of which are
dicts, so nothing is emitted, as embedded here. -/
def validate_breadcrumb (schema : Json) (result : SchemaValidationResult) :
    SchemaValidationResult :=
  let result : SchemaValidationResult := { result with breadcrumb_present := true }
  let items : Json :=
    match schema.get "itemListElement" with
    | some v => v
    | none => Json.arr []
  if !items.truthy then
    { result with errors := result.errors ++
      [⟨IssueSeverity.ERROR, "BreadcrumbList", "itemListElement",
        "BreadcrumbList has no items",
        "Add ListItem elements with position, name, and item"⟩] }
  else
    match items with
    | Json.arr xs => xs.enum.foldl breadcrumbItemStep result
    | _ => result

/-- `SchemaValidator._validate_organization`. -/
def validate_organization (schema : Json) (result : SchemaValidationResult) :
    SchemaValidationResult :=
  let result : SchemaValidationResult := { result with organization_present := true }
  { result with
    errors := result.errors ++
      (missingFields schema ORGANIZATION_REQUIRED).map (missingRequiredIssue "Organization"),
    warnings := result.warnings ++
      (missingFields schema ORGANIZATION_RECOMMENDED).map
        (fun f => missingRecommendedIssue "Organization" f "for richer organization display") }

/-- `SchemaValidator._validate_website`. -/
def validate_website (schema : Json) (result : SchemaValidationResult) :
    SchemaValidationResult :=
  let result : SchemaValidationResult := { result with website_present := true }
  let reqErrors := (missingFields schema WEBSITE_REQUIRED).map (missingRequiredIssue "WebSite")
  let result : SchemaValidationResult :=
    { result with errors := result.errors ++ reqErrors }
  let paOpt := schema.get "potentialAction"
  let paTruthy : Bool :=
    match paOpt with
    | some v => v.truthy
    | none => false
  if !paTruthy then
    { result with info := result.info ++
      [⟨IssueSeverity.INFO, "WebSite", "potentialAction", "No SearchAction defined",
        "Add SearchAction to enable sitelinks search box in Google"⟩] }
  else
    let pa : Json :=
      match paOpt with
      | some (Json.arr (x :: _)) => x
      | some (Json.arr []) => Json.null
      | some v => v
      | none => Json.null
    match pa with
    | Json.obj kvs =>
      match (Json.obj kvs).get "@type" with
      | some (Json.str t) =>
        if t == "SearchAction" && !jTruthyField (Json.obj kvs) "query-input" then
          { result with warnings := result.warnings ++
            [⟨IssueSeverity.WARNING, "WebSite", "potentialAction.query-input",
              "SearchAction missing query-input",
              "Add query-input to define search parameter"⟩] }
        else result
      | _ => result
    | _ => result

/-- `SchemaValidator._calculate_coverage_score`. -/
def calculate_coverage_score (result : SchemaValidationResult) : ℚ :=
  let score : ℚ := 0
  let max_score : ℚ := 100
  let score := if result.total_schemas > 0 then score + 20 else score
  let score := if result.breadcrumb_present then score + 15 else score
  let score := if result.organization_present then score + 15 else score
  let score := if result.website_present then score + 10 else score
  let score := if result.article_schema_valid then score + 20 else score
  let score := if result.product_schema_valid then score + 20 else score
  let error_deduction : ℚ := (result.errors.length : ℚ) * 5
  let warning_deduction : ℚ := (result.warnings.length : ℚ) * 2
  let score := max 0 (score - error_deduction - warning_deduction)
  min score max_score

/-- The per-schema dispatch of the loop body of `SchemaValidator.validate`. -/
def validateOne (r : SchemaValidationResult) (schema : Json) : SchemaValidationResult :=
  let schema_type := get_schema_type schema
  let r : SchemaValidationResult :=
    { r with schemas_found := r.schemas_found ++ [schema_type] }
  if schema_type ∈ ARTICLE_TYPES then validate_article schema r
  else if schema_type == "Product" then validate_product schema r
  else if schema_type == "BreadcrumbList" then validate_breadcrumb schema r
  else if schema_type == "Organization" then validate_organization schema r
  else if schema_type == "WebSite" then validate_website schema r
  else r

/-- `SchemaValidator.validate`, from the extracted JSON-LD block list onward
(see the section comment for the abstraction boundary).  An HTML page with no
JSON-LD blocks reaches this with the empty list. -/
def validate (schemas : List Json) : SchemaValidationResult :=
  let result : SchemaValidationResult := {}
  if schemas.isEmpty then
    { result with warnings :=
      [⟨IssueSeverity.WARNING, "General", "JSON-LD",
        "No JSON-LD structured data found",
        "Add JSON-LD schema markup for better search visibility"⟩] }
  else
    let result : SchemaValidationResult := { result with total_schemas := schemas.length }
    let result := schemas.foldl validateOne result
    { result with coverage_score := calculate_coverage_score result }

end SchemaValidator

/-! ## Technical SEO scoring (src/scanner/seo/technical.py) -/

namespace TechnicalSEO

/-- One entry of `TechnicalSEOResult.issues` / `.warnings`: a dict
`{'issue': ..., 'impact': ..., 'fix': ...}`.  `impact` is optional to mirror
`issue.get('impact', default)`. -/
structure TechIssue where
  issue : String
  impact : Option String
  fix : String
deriving DecidableEq, Repr

/-- Per-issue deduction of `TechnicalSEO._calculate_score`
(`issue.get('impact', 'MEDIUM')`; CRITICAL 25, HIGH 15, MEDIUM 10, else 5). -/
def issueDeduction (i : TechIssue) : ℚ :=
  let impact := i.impact.getD "MEDIUM"
  if impact == "CRITICAL" then 25
  else if impact == "HIGH" then 15
  else if impact == "MEDIUM" then 10
  else 5

/-- Per-warning deduction of `TechnicalSEO._calculate_score`
(`warning.get('impact', 'LOW')`; HIGH 10, MEDIUM 5, else 2). -/
def warningDeduction (w : TechIssue) : ℚ :=
  let impact := w.impact.getD "LOW"
  if impact == "HIGH" then 10
  else if impact == "MEDIUM" then 5
  else 2

/-- `TechnicalSEO._calculate_score`, as a function of the `issues` and
`warnings` lists of a `TechnicalSEOResult` (the only fields it reads):
start at 100, subtract the impact-weighted deductions, clamp. -/
def calculate_score (issues warnings : List TechIssue) : ℚ :=
  let score : ℚ := 100
  let score := score - (issues.map issueDeduction).sum
  let score := score - (warnings.map warningDeduction).sum
  max 0 (min 100 score)

end TechnicalSEO

/-! ## Article extraction (src/scanner/content/article_extractor.py)

`extract_single` is embedded from the HTTP response onward.  The response is
an explicit `Option HTTPResponse` input (`None` models a failed fetch); the
BeautifulSoup document is abstracted into a `Soup` record whose fields are
exactly the query results the extractor reads, each documented below.  JSON-LD
extraction follows `_extract_jsonld_manually` (the no-extruct path; the
extruct path differs only in also extracting an image URL). -/

/-- Python `str.strip()`: drop whitespace from both ends. -/
def pyStrip (s : String) : String :=
  List.asString ((s.toList.dropWhile Char.isWhitespace).reverse.dropWhile
    Char.isWhitespace).reverse

/-- Python `str.split()` (split on whitespace runs, dropping empties),
accumulator-style over the character list. -/
def splitWsAux : List Char → List Char → List (List Char)
  | [], acc => if acc.isEmpty then [] else [acc.reverse]
  | c :: cs, acc =>
    if c.isWhitespace then
      (if acc.isEmpty then splitWsAux cs [] else acc.reverse :: splitWsAux cs [])
    else splitWsAux cs (c :: acc)

def pySplitWs (s : String) : List String :=
  (splitWsAux s.toList []).map List.asString

/-- The remainder of `hay` after the first occurrence of `pat`. -/
def afterSub (pat : List MTok) : List Char → Option (List Char)
  | [] => if matchesHere pat [] then some [] else none
  | c :: cs =>
    if matchesHere pat (c :: cs) then some ((c :: cs).drop pat.length)
    else afterSub pat cs

/-- `urlparse(u).path`: strip `scheme://netloc` when a `://` is present, then
cut the remainder at the query/fragment separators. -/
def urlPath (u : String) : String :=
  let rest : List Char :=
    match afterSub (litToks "://") u.toList with
    | some r => r.dropWhile (fun c => c ≠ '/')
    | none => u.toList
  List.asString (rest.takeWhile (fun c => c ≠ '?' && c ≠ '#'))

/-- Case-insensitive `needle in haystack.lower()` (needle written lowercase). -/
def strContainsSubCI (hay needle : String) : Bool :=
  searchToks (litToks needle) (lowerChars hay.toList)

namespace ArticleExtractor

def ARTICLE_TYPES : List String :=
  ["Article", "NewsArticle", "BlogPosting", "TechArticle", "ScholarlyArticle",
   "SocialMediaPosting", "Report", "WebPage"]

def MIN_WORD_COUNT : Nat := 300

/-- `ArticleData` dataclass of article_extractor.py.  `date_published` /
`date_modified` keep the raw JSON-LD value (Python stores it untyped and only
ever tests truthiness); HTML-sourced dates are stored as `Json.str`. -/
structure ArticleData where
  title : String := ""
  url : String
  date_published : Option Json := none
  date_modified : Option Json := none
  author : Option String := none
  categories : List String := []
  tags : List String := []
  word_count : Nat := 0
  h1_count : Nat := 0
  h2_count : Nat := 0
  meta_title : Option String := none
  meta_description : Option String := none
  meta_description_length : Nat := 0
  canonical : Option String := none
  indexable : Bool := true
  status_code : Nat := 200
  has_schema : Bool := false
  schema_type : Option String := none
  image_url : Option String := none
  reading_time_minutes : Nat := 0
  issues : List String := []
  warnings : List String := []

/-- The parsed-document abstraction: one field per BeautifulSoup query the
extractor performs. -/
structure Soup where
  /-- `soup.find('title')`: text of the first `<title>`, before `.strip()`. -/
  titleTagText : Option String := none
  /-- texts of all `<h1>` elements (`find` reads the head, `find_all` the length). -/
  h1Texts : List String := []
  /-- `len(soup.find_all('h2'))`. -/
  h2Count : Nat := 0
  /-- `content` attribute of `meta[name=description]` (some "" when the
  attribute is missing on a present tag). -/
  metaDescription : Option String := none
  /-- `href` attribute of `link[rel=canonical]`. -/
  canonicalHref : Option String := none
  /-- `content` attribute of `meta[name=author]`. -/
  metaAuthor : Option String := none
  /-- `content` attribute of `meta[name=keywords]`. -/
  metaKeywords : Option String := none
  /-- `content` attribute of `meta[name=robots]`. -/
  metaRobots : Option String := none
  /-- The string produced by the `date_selectors` search of
  `_extract_from_html` (datetime attribute or stripped element text). -/
  dateFound : Option String := none
  /-- Parsed bodies of `script[type=application/ld+json]` blocks
  (unparseable blocks are skipped by the source and omitted here). -/
  jsonldBlocks : List Json := []
  /-- `get_text(separator=' ', strip=True)` of the first content container
  (`<article>`, `<main>`, content-class `<div>`, `<body>`) after decomposing
  script/style/nav/footer/header/aside; `none` when no container exists. -/
  contentText : Option String := none

/-- A fetched response: status plus parsed document. -/
structure HTTPResponse where
  status_code : Nat
  soup : Soup

/-- The result dict built by `_extract_jsonld_manually` for the first
JSON-LD item whose `@type` is in `ARTICLE_TYPES`. -/
structure SchemaData where
  type : String
  title : String
  datePublished : Option Json
  dateModified : Option Json
  author : Option String

/-- `@type` of a JSON-LD item as a comparable string (first element when a
list); non-string values never equal an `ARTICLE_TYPES` entry, embedded as
`none`. -/
def itemTypeStr (item : Json) : Option String :=
  match item.get "@type" with
  | some (Json.str s) => some s
  | some (Json.arr (Json.str s :: _)) => some s
  | _ => none

/-- The `title`/`datePublished`/`dateModified`/`author` assembly of
`_extract_jsonld_manually` for one matching item. -/
def schemaDataOfItem (t : String) (item : Json) : SchemaData :=
  let title :=
    match item.get "headline" with
    | some h =>
      if h.truthy then pyStr h
      else
        match item.get "name" with
        | some n => pyStr n
        | none => ""
    | none =>
      match item.get "name" with
      | some n => pyStr n
      | none => ""
  let author : Option String :=
    match item.get "author" with
    | none => none
    | some a =>
      if !a.truthy then none
      else
        let a : Json :=
          match a with
          | Json.arr (x :: _) => x
          | Json.arr [] => Json.null
          | v => v
        match a with
        | Json.obj _ =>
          some (match a.get "name" with
                | some n => pyStr n
                | none => "")
        | v => some (pyStr v)
  { type := t, title := title,
    datePublished := item.get "datePublished",
    dateModified := item.get "dateModified",
    author := author }

/-- The inner `for item in items` loop: first item of an Article-family
`@type` wins. -/
def firstArticleItem : List Json → Option SchemaData
  | [] => none
  | item :: rest =>
    match item with
    | Json.obj kvs =>
      (match itemTypeStr (Json.obj kvs) with
       | some t =>
         if t ∈ ARTICLE_TYPES then some (schemaDataOfItem t (Json.obj kvs))
         else firstArticleItem rest
       | none => firstArticleItem rest)
    | _ => firstArticleItem rest

/-- The `@graph` / list / single-object unwrapping of one JSON-LD block. -/
def blockItems (b : Json) : List Json :=
  match b.get "@graph" with
  | some (Json.arr g) => g
  | some _ => []
  | none =>
    match b with
    | Json.arr xs => xs
    | v => [v]

/-- `ArticleExtractor._extract_jsonld_manually` over the parsed block list:
first matching item across blocks, in document order. -/
def extract_from_jsonld : List Json → Option SchemaData
  | [] => none
  | b :: bs =>
    match firstArticleItem (blockItems b) with
    | some sd => some sd
    | none => extract_from_jsonld bs

/-- Truthiness of an optional string (Python `not x` for `None`/empty). -/
def optStrFalsy (o : Option String) : Bool :=
  match o with
  | none => true
  | some s => s == ""

/-- Truthiness of an optional JSON value. -/
def optJsonFalsy (o : Option Json) : Bool :=
  match o with
  | none => true
  | some v => !v.truthy

/-- `ArticleExtractor._extract_from_html`: fill title (from `<title>` then
`<h1>`) only when still empty, always record `meta_title`, then meta
description, canonical, author meta, keyword tags, and an HTML-derived date
when JSON-LD provided none. -/
def extract_from_html (soup : Soup) (article : ArticleData) : ArticleData :=
  { article with
    title :=
      if article.title == "" then
        match soup.h1Texts.head? with
        | some h => pyStrip h
        | none =>
          match soup.titleTagText with
          | some t => pyStrip t
          | none => article.title
      else article.title,
    meta_title :=
      match soup.titleTagText with
      | some t => some (pyStrip t)
      | none => article.meta_title,
    meta_description :=
      match soup.metaDescription with
      | some d => some d
      | none => article.meta_description,
    meta_description_length :=
      match soup.metaDescription with
      | some d => d.length
      | none => article.meta_description_length,
    canonical :=
      match soup.canonicalHref with
      | some c => some c
      | none => article.canonical,
    author :=
      if optStrFalsy article.author then
        match soup.metaAuthor with
        | some a => some a
        | none => article.author
      else article.author,
    tags :=
      match soup.metaKeywords with
      | some k =>
        if k ≠ "" then ((k.splitOn ",").map pyStrip).filter (fun t => t ≠ "")
        else article.tags
      | none => article.tags,
    date_published :=
      if optJsonFalsy article.date_published then
        match soup.dateFound with
        | some d => some (Json.str d)
        | none => article.date_published
      else article.date_published }

/-- `ArticleExtractor._analyze_content`: heading counts and the
whitespace-split word count of the content container (unchanged when no
container exists). -/
def analyze_content (soup : Soup) (article : ArticleData) : ArticleData :=
  { article with
    h1_count := soup.h1Texts.length,
    h2_count := soup.h2Count,
    word_count :=
      match soup.contentText with
      | some t => (pySplitWs t).length
      | none => article.word_count }

/-- `ArticleExtractor._check_indexability`: the `noindex` robots directive and
the canonical-path comparison. -/
def check_indexability (soup : Soup) (article : ArticleData) : ArticleData :=
  let noindex : Bool :=
    match soup.metaRobots with
    | some content => strContainsSubCI content "noindex"
    | none => false
  let canonicalElsewhere : Bool :=
    match article.canonical with
    | some c => c ≠ "" && c ≠ article.url && urlPath c ≠ urlPath article.url
    | none => false
  { article with
    indexable := if noindex then false else article.indexable,
    issues := article.issues ++ (if noindex then ["Page has noindex directive"] else []),
    warnings := article.warnings ++
      (if canonicalElsewhere then ["Canonical points to different URL"] else []) }

/-- `ArticleExtractor._generate_issues`: the fixed rule table, in source
order (each rule appends to `issues` or `warnings`). -/
def generate_issues (article : ArticleData) : ArticleData :=
  let newIssues : List String :=
    (if article.title == "" then ["Missing title"] else []) ++
    (if optStrFalsy article.meta_description then ["Missing meta description"] else []) ++
    (if article.h1_count == 0 then ["Missing H1 tag"] else [])
  let newWarnings : List String :=
    (if article.title ≠ "" && article.title.length < 30 then ["Title too short (< 30 chars)"]
     else if article.title ≠ "" && article.title.length > 60 then ["Title too long (> 60 chars)"]
     else []) ++
    (if !optStrFalsy article.meta_description && article.meta_description_length < 120 then
       ["Meta description too short (< 120 chars)"]
     else if !optStrFalsy article.meta_description && article.meta_description_length > 160 then
       ["Meta description too long (> 160 chars)"]
     else []) ++
    (if article.h1_count > 1 then ["Multiple H1 tags (" ++ toString article.h1_count ++ ")"] else []) ++
    (if article.word_count < MIN_WORD_COUNT then
       ["Thin content (" ++ toString article.word_count ++ " words)"] else []) ++
    (if !article.has_schema then ["No Article schema markup"] else []) ++
    (if optJsonFalsy article.date_published then ["Missing published date"] else []) ++
    (if optStrFalsy article.author then ["Missing author information"] else [])
  { article with issues := article.issues ++ newIssues,
                 warnings := article.warnings ++ newWarnings }

/-- The `if schema_data:` fill of `extract_single`: copy the JSON-LD fields
into the record when a matching block was found. -/
def apply_jsonld (soup : Soup) (article : ArticleData) : ArticleData :=
  match extract_from_jsonld soup.jsonldBlocks with
  | some sd =>
    { article with has_schema := true, schema_type := some sd.type,
                   title := sd.title, date_published := sd.datePublished,
                   date_modified := sd.dateModified, author := sd.author,
                   image_url := none }
  | none => article

/-- The reading-time step of `extract_single`:
`if word_count > 0: reading_time_minutes = max(1, word_count // 200)`. -/
def apply_reading_time (article : ArticleData) : ArticleData :=
  if article.word_count > 0 then
    { article with reading_time_minutes := max 1 (article.word_count / 200) }
  else article

/-- `ArticleExtractor.extract_single`, from the HTTP response onward
(`none` response models a failed fetch; any raised exception likewise yields
`none` in the source). -/
def extract_single (url : String) (response : Option HTTPResponse) : Option ArticleData :=
  match response with
  | none => none
  | some resp =>
    let article : ArticleData := { title := "", url := url, status_code := resp.status_code }
    if resp.status_code ≠ 200 then
      some { article with indexable := false,
                          issues := article.issues ++
                            ["Non-200 status code: " ++ toString resp.status_code] }
    else
      let soup := resp.soup
      let article := apply_jsonld soup article
      let article := extract_from_html soup article
      let article := analyze_content soup article
      let article := check_indexability soup article
      let article := apply_reading_time article
      some (generate_issues article)

end ArticleExtractor

/-! ## Content scanner summary (src/scanner/content_scanner.py) -/

namespace ContentScanner

/-- The values `_generate_summary` reads out of the per-component result
dicts (each a `.get` with default on the corresponding `to_dict()` output). -/
structure ScanResults where
  sitemap_count : Nat := 0
  sitemap_total_urls : Nat := 0
  rss_feed_count : Nat := 0
  rss_total_items : Nat := 0
  articles_total : Nat := 0
  articles_with_schema : Nat := 0
  articles_indexable : Nat := 0
  articles_thin : Nat := 0
  products_total : Nat := 0
  products_with_schema : Nat := 0
  products_with_price : Nat := 0
  products_with_availability : Nat := 0
  technical_score : ℚ := 0
  onpage_score : ℚ := 0
  schema_coverage : ℚ := 0
  technical_issue_count : Nat := 0
  onpage_issue_count : Nat := 0
  schema_error_count : Nat := 0

/-- The `summary` dict built by `_generate_summary`. -/
structure Summary where
  sitemaps : Nat
  sitemap_urls : Nat
  rss_feeds : Nat
  rss_items : Nat
  articles_total : Nat
  articles_with_schema : Nat
  articles_indexable : Nat
  articles_thin_content : Nat
  products_total : Nat
  products_with_schema : Nat
  products_with_price : Nat
  products_with_availability : Nat
  scores_technical_seo : ℚ
  scores_onpage_seo : ℚ
  scores_schema_coverage : ℚ
  issues_technical : Nat
  issues_onpage : Nat
  issues_schema : Nat
  overall_score : ℤ

/-- Python 3 `round` to an int: nearest integer, ties to even. -/
def pyRound (q : ℚ) : ℤ :=
  let f := ⌊q⌋
  let r := q - f
  if r < 1/2 then f
  else if r > 1/2 then f + 1
  else if f % 2 = 0 then f else f + 1

/-- `ContentScanner._generate_summary`: copy the component fields, then
`overall_score = round(technical*0.35 + onpage*0.35 + schema_coverage*0.30)`
over the scores recorded in the same summary. -/
def generate_summary (res : ScanResults) : Summary :=
  let scores_technical : ℚ := res.technical_score
  let scores_onpage : ℚ := res.onpage_score
  let scores_schema : ℚ := res.schema_coverage
  { sitemaps := res.sitemap_count,
    sitemap_urls := res.sitemap_total_urls,
    rss_feeds := res.rss_feed_count,
    rss_items := res.rss_total_items,
    articles_total := res.articles_total,
    articles_with_schema := res.articles_with_schema,
    articles_indexable := res.articles_indexable,
    articles_thin_content := res.articles_thin,
    products_total := res.products_total,
    products_with_schema := res.products_with_schema,
    products_with_price := res.products_with_price,
    products_with_availability := res.products_with_availability,
    scores_technical_seo := scores_technical,
    scores_onpage_seo := scores_onpage,
    scores_schema_coverage := scores_schema,
    issues_technical := res.technical_issue_count,
    issues_onpage := res.onpage_issue_count,
    issues_schema := res.schema_error_count,
    overall_score :=
      pyRound (scores_technical * 0.35 + scores_onpage * 0.35 + scores_schema * 0.30) }

end ContentScanner

/-! ## Concrete inputs used by the claim theorems and witnesses -/

/-- Is the JSON value a dict?  (Python's validators call `.get` on each
schema, so non-dict top-level blocks would raise; theorems about `validate`
hypothesize dict blocks.) -/
def Json.isObj : Json → Bool
  | Json.obj _ => true
  | _ => false

/-- `n` copies of `word ` (whitespace-separated word list). -/
def repWord : Nat → List Char
  | 0 => []
  | n + 1 => 'w' :: 'o' :: 'r' :: 'd' :: ' ' :: repWord n

/-- A body text of exactly 150 whitespace-separated words. -/
def words150 : String := List.asString (repWord 150)

/-- A parsed page whose content container holds 150 words (thin-content
scenario). -/
def soupThin150 : ArticleExtractor.Soup := { contentText := some words150 }

/-- A parsed page carrying an Article JSON-LD block with `headline` `A` and
an HTML `<title>` `B`. -/
def soupJsonldA : ArticleExtractor.Soup :=
  { titleTagText := some "B",
    jsonldBlocks := [Json.obj [("@type", Json.str "Article"), ("headline", Json.str "A")]],
    contentText := some words150 }

/-- The same page without the JSON-LD block. -/
def soupNoJsonld : ArticleExtractor.Soup :=
  { titleTagText := some "B", contentText := some words150 }

/-- A failed-fetch response: non-200 status, empty parsed document. -/
def resp404 : ArticleExtractor.HTTPResponse := ⟨404, {}⟩

/-- Component scores making the weighted sum `99.7`, a non-integer. -/
def scanResults997 : ContentScanner.ScanResults :=
  { technical_score := 100, onpage_score := 100, schema_coverage := 99 }

/-- A sample Organization JSON-LD block (witness input for the coverage
formula). -/
def orgSchema : Json := Json.obj [("@type", Json.str "Organization"), ("name", Json.str "Acme")]

/-- A CRITICAL-impact technical issue (witness input for score monotonicity). -/
def criticalIssue : TechnicalSEO.TechIssue :=
  ⟨"Site not accessible", some "CRITICAL", "Check server"⟩

/-- The invariant carried through `sample`: every sampled element either came
from RSS (where classification is bypassed) or has a URL matching no skip
pattern. -/
def sampledOk (x : SampledURL) : Prop :=
  x.source = "rss" ∨ matchesAnyPat SKIP_PATTERNS x.url = false

/-- `sampledOk` holds across all four per-type lists. -/
def resultOk (r : SamplerResult) : Prop :=
  (∀ x ∈ r.articles, sampledOk x) ∧ (∀ x ∈ r.products, sampledOk x) ∧
  (∀ x ∈ r.categories, sampledOk x) ∧ (∀ x ∈ r.pages, sampledOk x)

theorem classify_url_of_skip (u : String)
    (h : matchesAnyPat SKIP_PATTERNS u = true) : classify_url u = URLType.OTHER := by
  simp [classify_url, h]

theorem skip_false_of_classify_ne (u : String)
    (h : classify_url u ≠ URLType.OTHER) : matchesAnyPat SKIP_PATTERNS u = false := by
  by_contra hc
  exact h (classify_url_of_skip u (by simpa using hc))

theorem classify_and_add_ok (url : String) (st : SamplerResult × List String)
    (source : String) (ft : Option URLType) (d : Nat) (p : ℚ)
    (hok : ft = none ∨ source = "rss") (h : resultOk st.1) :
    resultOk (classify_and_add url st source ft d p).1 := by
  unfold classify_and_add
  dsimp only
  split
  · exact h
  · split
    · exact h
    · rename_i hseen hother
      have hx : sampledOk ⟨url, ft.getD (classify_url url), d, source, p⟩ := by
        rcases hok with hft | hsrc
        · subst hft
          right
          exact skip_false_of_classify_ne url (by simpa using hother)
        · left
          exact hsrc
      obtain ⟨h1, h2, h3, h4⟩ := h
      have happ : ∀ (l : List SampledURL), (∀ x ∈ l, sampledOk x) →
          ∀ x ∈ l ++ [(⟨url, ft.getD (classify_url url), d, source, p⟩ : SampledURL)],
            sampledOk x := by
        intro l hl x hm
        rcases List.mem_append.1 hm with hm | hm
        · exact hl x hm
        · rw [List.mem_singleton.1 hm]
          exact hx
      split
      · exact ⟨happ _ h1, h2, h3, h4⟩
      · exact ⟨h1, happ _ h2, h3, h4⟩
      · exact ⟨h1, h2, happ _ h3, h4⟩
      · exact ⟨h1, h2, h3, happ _ h4⟩
      · exact ⟨h1, h2, h3, h4⟩

theorem process_sitemap_urls_ok (m : Nat) (urls : List String)
    (st : SamplerResult × List String) (h : resultOk st.1) :
    resultOk (process_sitemap_urls m urls st).1 := by
  induction urls generalizing st with
  | nil => simpa [process_sitemap_urls] using h
  | cons u us ih =>
    unfold process_sitemap_urls
    split
    · exact h
    · exact ih _ (classify_and_add_ok u st "sitemap" none 0 (1/2) (Or.inl rfl) h)

theorem process_rss_urls_ok (m : Nat) (urls : List String)
    (st : SamplerResult × List String) (h : resultOk st.1) :
    resultOk (process_rss_urls m urls st).1 := by
  induction urls generalizing st with
  | nil => simpa [process_rss_urls] using h
  | cons u us ih =>
    unfold process_rss_urls
    split
    · exact h
    · exact ih _
        (classify_and_add_ok u st "rss" (some URLType.ARTICLE) 0 (1/2) (Or.inr rfl) h)

theorem crawl_foldl_ok (urls : List String) (st : SamplerResult × List String)
    (h : resultOk st.1) :
    resultOk (urls.foldl (fun st url => classify_and_add url st "crawl" none 0 (1/2)) st).1 := by
  induction urls generalizing st with
  | nil => simpa using h
  | cons u us ih =>
    exact ih _ (classify_and_add_ok u st "crawl" none 0 (1/2) (Or.inl rfl) h)

theorem mem_insertDesc {x a : SampledURL} {l : List SampledURL}
    (h : x ∈ insertDesc a l) : x = a ∨ x ∈ l := by
  induction l with
  | nil => simpa [insertDesc] using h
  | cons y ys ih =>
    unfold insertDesc at h
    split at h
    · simpa using h
    · rcases List.mem_cons.1 h with h | h
      · exact Or.inr (by simp [h])
      · rcases ih h with h | h
        · exact Or.inl h
        · exact Or.inr (by simp [h])

theorem mem_sortByPriorityDesc {x : SampledURL} {l : List SampledURL}
    (h : x ∈ sortByPriorityDesc l) : x ∈ l := by
  induction l with
  | nil => simp [sortByPriorityDesc] at h
  | cons y ys ih =>
    unfold sortByPriorityDesc at h
    rcases mem_insertDesc h with h | h
    · simp [h]
    · exact List.mem_cons_of_mem _ (ih h)

theorem sample_inner_ok (m : Nat) (base : String) (su ru cu : List String) :
    resultOk (if (process_rss_urls m ru (process_sitemap_urls m su
          ({ homepage := some base }, []))).1.articles.length < m ∨
        (process_rss_urls m ru (process_sitemap_urls m su
          ({ homepage := some base }, []))).1.products.length < m then
        cu.foldl (fun st url => classify_and_add url st "crawl" none 0 (1/2))
          (process_rss_urls m ru (process_sitemap_urls m su ({ homepage := some base }, [])))
      else
        process_rss_urls m ru (process_sitemap_urls m su
          ({ homepage := some base }, []))).1 := by
  have h0 : resultOk (({ homepage := some base }, ([] : List String)) :
      SamplerResult × List String).1 := by
    refine ⟨?_, ?_, ?_, ?_⟩ <;> intro x hx <;> simp at hx
  have h2 := process_rss_urls_ok m ru _ (process_sitemap_urls_ok m su _ h0)
  split
  · exact crawl_foldl_ok cu _ h2
  · exact h2

/-- C1 (amended): every URL placed by `URLSampler.sample` into the articles,
products, categories or pages lists either arrived from the RSS source (where
`_classify_and_add` bypasses `_classify_url` with a forced `ARTICLE` type) or
matches no skip pattern.  Equivalently: skip-matching URLs from the sitemap
and crawl sources are classified `OTHER` and never appear in any per-type
list; the RSS source is the claim's exception. -/
theorem claim_C1_amended (m : Nat) (base : String) (su ru cu : List String) :
    ((sample m base su ru cu).articles ++ (sample m base su ru cu).products ++
      (sample m base su ru cu).categories ++ (sample m base su ru cu).pages).all
      (fun x => x.source == "rss" || !matchesAnyPat SKIP_PATTERNS x.url) = true := by
  have hok := sample_inner_ok m base su ru cu
  obtain ⟨h1, h2, h3, h4⟩ := hok
  rw [List.all_eq_true]
  intro x hx
  have hx2 : sampledOk x := by
    simp only [sample, List.mem_append] at hx
    rcases hx with ((hx | hx) | hx) | hx
    · exact h1 x (mem_sortByPriorityDesc (List.take_subset _ _ hx))
    · exact h2 x (mem_sortByPriorityDesc (List.take_subset _ _ hx))
    · exact h3 x (mem_sortByPriorityDesc (List.take_subset _ _ hx))
    · exact h4 x (mem_sortByPriorityDesc (List.take_subset _ _ hx))
  rcases hx2 with hsrc | hskip
  · simp [hsrc]
  · simp [hskip]

/-- C1 counterexample: `https://example.com/cart` matches a skip pattern (so
`_classify_url` would return `OTHER`), yet when it arrives via the RSS source
`sample` places it in the articles list — refuting the claim's "regardless of
the URL's source (sitemap, rss, or crawl)". -/
theorem claim_C1_counterexample :
    matchesAnyPat SKIP_PATTERNS "https://example.com/cart" = true ∧
    classify_url "https://example.com/cart" = URLType.OTHER ∧
    ((sample 10 "https://example.com" [] ["https://example.com/cart"] []).articles.map
      SampledURL.url) = ["https://example.com/cart"] := by
  refine ⟨by decide, by decide, by decide⟩

/-- C2: `_classify_url` is a pure function of the URL string with precedence
skip > product > article > category > page, and the three documented examples
classify as stated. -/
theorem claim_C2 :
    (∀ u : String, matchesAnyPat SKIP_PATTERNS u = true →
      classify_url u = URLType.OTHER) ∧
    (∀ u : String, matchesAnyPat SKIP_PATTERNS u = false →
      matchesAnyPat PRODUCT_PATTERNS u = true →
      classify_url u = URLType.PRODUCT) ∧
    (∀ u : String, matchesAnyPat SKIP_PATTERNS u = false →
      matchesAnyPat PRODUCT_PATTERNS u = false →
      matchesAnyPat ARTICLE_PATTERNS u = true →
      classify_url u = URLType.ARTICLE) ∧
    (∀ u : String, matchesAnyPat SKIP_PATTERNS u = false →
      matchesAnyPat PRODUCT_PATTERNS u = false →
      matchesAnyPat ARTICLE_PATTERNS u = false →
      matchesAnyPat CATEGORY_PATTERNS u = true →
      classify_url u = URLType.CATEGORY) ∧
    (∀ u : String, matchesAnyPat SKIP_PATTERNS u = false →
      matchesAnyPat PRODUCT_PATTERNS u = false →
      matchesAnyPat ARTICLE_PATTERNS u = false →
      matchesAnyPat CATEGORY_PATTERNS u = false →
      matchesAnyPat PAGE_PATTERNS u = true →
      classify_url u = URLType.PAGE) ∧
    classify_url "https://example.com/blog/2024/01/my-post" = URLType.ARTICLE ∧
    classify_url "https://example.com/shop/widget-p-123" = URLType.PRODUCT ∧
    classify_url "https://example.com/wp-admin/x" = URLType.OTHER := by
  refine ⟨?_, ?_, ?_, ?_, ?_, by decide, by decide, by decide⟩ <;>
    intro u <;> intros <;> simp_all [classify_url]

/-- C2 witness: the precedence statements applied at the documented example
URLs. -/
theorem claim_C2_witness :
    classify_url "https://example.com/shop/widget-p-123" = URLType.PRODUCT ∧
    classify_url "https://example.com/wp-admin/x" = URLType.OTHER ∧
    classify_url "https://example.com/blog/2024/01/my-post" = URLType.ARTICLE :=
  ⟨claim_C2.2.1 "https://example.com/shop/widget-p-123" (by decide) (by decide),
   claim_C2.1 "https://example.com/wp-admin/x" (by decide),
   claim_C2.2.2.1 "https://example.com/blog/2024/01/my-post" (by decide) (by decide) (by decide)⟩

/-- C3: after the final per-type trim, each of the four sampled lists has at
most `max_per_type` elements, for every input. -/
theorem claim_C3 (m : Nat) (base : String) (su ru cu : List String) :
    (sample m base su ru cu).articles.length ≤ m ∧
    (sample m base su ru cu).products.length ≤ m ∧
    (sample m base su ru cu).categories.length ≤ m ∧
    (sample m base su ru cu).pages.length ≤ m := by
  refine ⟨?_, ?_, ?_, ?_⟩ <;>
    simp [sample, List.length_take]

/-- `_calculate_coverage_score` written as one clamped linear expression. -/
theorem calc_coverage_eq (r : SchemaValidationResult) :
    SchemaValidator.calculate_coverage_score r =
      min (max 0 (((if 0 < r.total_schemas then (20:ℚ) else 0) +
        (if r.breadcrumb_present then 15 else 0) +
        (if r.organization_present then 15 else 0) +
        (if r.website_present then 10 else 0) +
        (if r.article_schema_valid then 20 else 0) +
        (if r.product_schema_valid then 20 else 0)) -
        5 * (r.errors.length : ℚ) - 2 * (r.warnings.length : ℚ))) 100 := by
  unfold SchemaValidator.calculate_coverage_score
  split_ifs <;> ring_nf

theorem calc_coverage_bounds (r : SchemaValidationResult) :
    0 ≤ SchemaValidator.calculate_coverage_score r ∧
    SchemaValidator.calculate_coverage_score r ≤ 100 := by
  unfold SchemaValidator.calculate_coverage_score
  constructor
  · exact le_min (le_max_left _ _) (by norm_num)
  · exact min_le_right _ _

/-- C4: for every extracted JSON-LD block list (each block a dict, as the
Python validators presuppose), the returned `coverage_score` equals base 20
for any schema, +15/+15/+10/+20/+20 for breadcrumb / organization / website /
valid-article / valid-product, minus 5 per error and 2 per warning, clamped
to [0, 100]; in particular it always lies in [0, 100]. -/
theorem claim_C4 (schemas : List Json) (hobj : ∀ s ∈ schemas, s.isObj = true) :
    ((SchemaValidator.validate schemas).coverage_score =
      min (max 0 (((if 0 < (SchemaValidator.validate schemas).total_schemas then (20:ℚ) else 0) +
        (if (SchemaValidator.validate schemas).breadcrumb_present then 15 else 0) +
        (if (SchemaValidator.validate schemas).organization_present then 15 else 0) +
        (if (SchemaValidator.validate schemas).website_present then 10 else 0) +
        (if (SchemaValidator.validate schemas).article_schema_valid then 20 else 0) +
        (if (SchemaValidator.validate schemas).product_schema_valid then 20 else 0)) -
        5 * ((SchemaValidator.validate schemas).errors.length : ℚ) -
        2 * ((SchemaValidator.validate schemas).warnings.length : ℚ))) 100) ∧
    0 ≤ (SchemaValidator.validate schemas).coverage_score ∧
    (SchemaValidator.validate schemas).coverage_score ≤ 100 := by
  cases schemas with
  | nil =>
    refine ⟨?_, by norm_num [SchemaValidator.validate], by norm_num [SchemaValidator.validate]⟩
    simp [SchemaValidator.validate]
  | cons s ss =>
    have hne : ¬(s :: ss : List Json).isEmpty := by simp
    constructor
    · simp only [SchemaValidator.validate, hne, Bool.false_eq_true, if_false]
      exact calc_coverage_eq _
    · constructor
      · simp only [SchemaValidator.validate, hne, Bool.false_eq_true, if_false]
        exact (calc_coverage_bounds _).1
      · simp only [SchemaValidator.validate, hne, Bool.false_eq_true, if_false]
        exact (calc_coverage_bounds _).2

/-- C4 witness: the coverage bounds at a concrete one-block schema list. -/
theorem claim_C4_witness :
    (∀ s ∈ [orgSchema], s.isObj = true) ∧
    0 ≤ (SchemaValidator.validate [orgSchema]).coverage_score ∧
    (SchemaValidator.validate [orgSchema]).coverage_score ≤ 100 :=
  ⟨by decide, (claim_C4 [orgSchema] (by decide)).2⟩

theorem issueDeduction_nonneg (i : TechnicalSEO.TechIssue) :
    0 ≤ TechnicalSEO.issueDeduction i := by
  unfold TechnicalSEO.issueDeduction
  dsimp only
  split_ifs <;> norm_num

theorem warningDeduction_nonneg (w : TechnicalSEO.TechIssue) :
    0 ≤ TechnicalSEO.warningDeduction w := by
  unfold TechnicalSEO.warningDeduction
  dsimp only
  split_ifs <;> norm_num

theorem issueDeductions_sum_nonneg (l : List TechnicalSEO.TechIssue) :
    0 ≤ (l.map TechnicalSEO.issueDeduction).sum := by
  apply List.sum_nonneg
  intro q hq
  obtain ⟨i, _, rfl⟩ := List.mem_map.1 hq
  exact issueDeduction_nonneg i

theorem warningDeductions_sum_nonneg (l : List TechnicalSEO.TechIssue) :
    0 ≤ (l.map TechnicalSEO.warningDeduction).sum := by
  apply List.sum_nonneg
  intro q hq
  obtain ⟨w, _, rfl⟩ := List.mem_map.1 hq
  exact warningDeduction_nonneg w

theorem calculate_score_eq (issues warnings : List TechnicalSEO.TechIssue) :
    TechnicalSEO.calculate_score issues warnings =
      max 0 (100 - (issues.map TechnicalSEO.issueDeduction).sum -
        (warnings.map TechnicalSEO.warningDeduction).sum) := by
  unfold TechnicalSEO.calculate_score
  dsimp only
  rw [min_eq_right]
  have h1 := issueDeductions_sum_nonneg issues
  have h2 := warningDeductions_sum_nonneg warnings
  linarith

/-- C5: appending one CRITICAL-impact issue (deduction 25) strictly decreases
the technical SEO score unless it is already at the floor 0, where it stays 0. -/
theorem claim_C5 (issues warnings : List TechnicalSEO.TechIssue)
    (c : TechnicalSEO.TechIssue) (hc : c.impact = some "CRITICAL") :
    (TechnicalSEO.calculate_score issues warnings = 0 →
      TechnicalSEO.calculate_score (issues ++ [c]) warnings = 0) ∧
    (TechnicalSEO.calculate_score issues warnings ≠ 0 →
      TechnicalSEO.calculate_score (issues ++ [c]) warnings <
        TechnicalSEO.calculate_score issues warnings) := by
  have happ : ((issues ++ [c]).map TechnicalSEO.issueDeduction).sum =
      (issues.map TechnicalSEO.issueDeduction).sum + 25 := by
    simp [TechnicalSEO.issueDeduction, hc]
  rw [calculate_score_eq, calculate_score_eq, happ]
  set x : ℚ := 100 - (issues.map TechnicalSEO.issueDeduction).sum -
    (warnings.map TechnicalSEO.warningDeduction).sum with hx
  have hx2 : 100 - ((issues.map TechnicalSEO.issueDeduction).sum + 25) -
      (warnings.map TechnicalSEO.warningDeduction).sum = x - 25 := by
    rw [hx]; ring
  rw [hx2]
  constructor
  · intro h0
    have hle : x ≤ 0 := max_eq_left_iff.mp h0
    exact max_eq_left (by linarith)
  · intro hne
    have hpos : 0 < x := by
      rcases le_or_lt x 0 with h | h
      · exact absurd (max_eq_left h) hne
      · exact h
    rw [max_eq_right hpos.le]
    exact max_lt hpos (by linarith)

/-- C5 witness: one CRITICAL issue added to an empty scorecard drops the
score below 100. -/
theorem claim_C5_witness :
    criticalIssue.impact = some "CRITICAL" ∧
    TechnicalSEO.calculate_score [] [] ≠ 0 ∧
    TechnicalSEO.calculate_score ([] ++ [criticalIssue]) [] <
      TechnicalSEO.calculate_score [] [] :=
  ⟨rfl, by norm_num [TechnicalSEO.calculate_score],
    (claim_C5 [] [] criticalIssue rfl).2
      (by norm_num [TechnicalSEO.calculate_score])⟩

/-- C10: validating HTML with no JSON-LD blocks (empty extracted block list)
yields zero schemas, zero coverage, no errors or info entries, and exactly the
single warning `No JSON-LD structured data found`. -/
theorem claim_C10 :
    (SchemaValidator.validate []).total_schemas = 0 ∧
    (SchemaValidator.validate []).coverage_score = 0 ∧
    (SchemaValidator.validate []).errors = [] ∧
    (SchemaValidator.validate []).info = [] ∧
    ((SchemaValidator.validate []).warnings.map SchemaIssue.message) =
      ["No JSON-LD structured data found"] :=
  ⟨rfl, rfl, rfl, rfl, rfl⟩

/-- C9 (amended): the summary's `overall_score` is the weighted component sum
`technical*0.35 + onpage*0.35 + schema_coverage*0.30` rounded to the nearest
integer by Python's `round` (ties to even), over the scores recorded in the
same summary. -/
theorem claim_C9_amended (res : ContentScanner.ScanResults) :
    (ContentScanner.generate_summary res).overall_score =
      ContentScanner.pyRound
        ((ContentScanner.generate_summary res).scores_technical_seo * 0.35 +
         (ContentScanner.generate_summary res).scores_onpage_seo * 0.35 +
         (ContentScanner.generate_summary res).scores_schema_coverage * 0.30) := rfl

/-- C9 counterexample: with component scores 100/100/99 the weighted sum is
99.7, but `_generate_summary` stores `round(99.7) = 100`, so `overall_score`
does not equal the unrounded weighted sum the claim states. -/
theorem claim_C9_counterexample :
    (ContentScanner.generate_summary scanResults997).scores_technical_seo = 100 ∧
    (ContentScanner.generate_summary scanResults997).scores_onpage_seo = 100 ∧
    (ContentScanner.generate_summary scanResults997).scores_schema_coverage = 99 ∧
    ((ContentScanner.generate_summary scanResults997).overall_score : ℚ) ≠
      (ContentScanner.generate_summary scanResults997).scores_technical_seo * 0.35 +
      (ContentScanner.generate_summary scanResults997).scores_onpage_seo * 0.35 +
      (ContentScanner.generate_summary scanResults997).scores_schema_coverage * 0.30 := by
  have h : (ContentScanner.generate_summary scanResults997).overall_score = 100 := by
    simp only [ContentScanner.generate_summary, ContentScanner.pyRound, scanResults997]
    norm_num
  refine ⟨rfl, rfl, rfl, ?_⟩
  rw [h]
  simp only [ContentScanner.generate_summary, scanResults997]
  norm_num

open ArticleExtractor in
/-- C8: a fetched response with a non-200 status yields a record (not `None`)
flagged non-indexable, carrying the response's status code and an issue
naming it. -/
theorem claim_C8 (url : String) (resp : HTTPResponse)
    (h : resp.status_code ≠ 200) :
    ∃ a, extract_single url (some resp) = some a ∧
      a.indexable = false ∧ a.status_code = resp.status_code ∧
      ("Non-200 status code: " ++ toString resp.status_code) ∈ a.issues := by
  unfold extract_single
  dsimp only
  rw [if_pos h]
  exact ⟨_, rfl, rfl, rfl, by simp⟩

open ArticleExtractor in
/-- C8 witness: a 404 response. -/
theorem claim_C8_witness :
    ∃ a, extract_single "https://example.com/x" (some resp404) = some a ∧
      a.indexable = false ∧ a.status_code = resp404.status_code ∧
      ("Non-200 status code: " ++ toString resp404.status_code) ∈ a.issues :=
  claim_C8 "https://example.com/x" resp404 (by decide)


open ArticleExtractor in
theorem apply_jsonld_reading (s : Soup) (a : ArticleData) :
    (apply_jsonld s a).reading_time_minutes = a.reading_time_minutes := by
  unfold apply_jsonld
  split <;> rfl

open ArticleExtractor in
theorem thin_warning_mem (a : ArticleData) (h : a.word_count < 300) :
    ("Thin content (" ++ toString a.word_count ++ " words)") ∈
      (generate_issues a).warnings := by
  unfold generate_issues
  dsimp only
  have h2 : a.word_count < MIN_WORD_COUNT := h
  simp [List.mem_append, h2]

open ArticleExtractor in
theorem reading_spec (b : ArticleData) (h0 : b.reading_time_minutes = 0) :
    (generate_issues (apply_reading_time b)).reading_time_minutes =
      (if 0 < (generate_issues (apply_reading_time b)).word_count
       then max 1 ((generate_issues (apply_reading_time b)).word_count / 200)
       else 0) := by
  unfold apply_reading_time
  by_cases hb : b.word_count > 0
  · rw [if_pos hb]
    show max 1 (b.word_count / 200) = if 0 < b.word_count then max 1 (b.word_count / 200) else 0
    rw [if_pos hb]
  · rw [if_neg hb]
    show b.reading_time_minutes = if 0 < b.word_count then max 1 (b.word_count / 200) else 0
    rw [if_neg hb, h0]

set_option maxRecDepth 10000 in
open ArticleExtractor in
/-- C6 (amended): for records produced by a full (status-200) extraction,
`reading_time_minutes` is `max(1, word_count // 200)` when `word_count > 0`
and stays `0` when `word_count = 0`, and any record under the 300-word
threshold carries a `Thin content (<n> words)` warning; the 150-word scenario
(final conjunct) yields `word_count = 150`, `reading_time_minutes = 1` and
that warning.  (On non-200 or failed fetches the source returns early and
emits neither, which is what forces the amendment.) -/
theorem claim_C6_amended :
    (∀ (url : String) (resp : HTTPResponse), resp.status_code = 200 →
      ∃ a, extract_single url (some resp) = some a ∧
        (a.reading_time_minutes =
          if 0 < a.word_count then max 1 (a.word_count / 200) else 0) ∧
        (a.word_count < 300 →
          ("Thin content (" ++ toString a.word_count ++ " words)") ∈ a.warnings)) ∧
    ((extract_single "https://example.com/blog/p" (some ⟨200, soupThin150⟩)).map
      (fun a => (a.word_count, a.reading_time_minutes,
        decide (("Thin content (150 words)") ∈ a.warnings)))) = some (150, 1, true) := by
  constructor
  · intro url resp h
    unfold extract_single
    dsimp only
    rw [if_neg (by simp [h])]
    refine ⟨_, rfl, ?_, ?_⟩
    · apply reading_spec
      show (apply_jsonld resp.soup
        { title := "", url := url, status_code := resp.status_code }).reading_time_minutes = 0
      rw [apply_jsonld_reading]
    · intro hlt
      exact thin_warning_mem _ hlt
  · decide

open ArticleExtractor in
/-- C6 witness: the amended statement instantiated at the thin-content page. -/
theorem claim_C6_witness :
    ∃ a, extract_single "https://example.com/blog/p" (some ⟨200, soupThin150⟩) = some a ∧
      (a.reading_time_minutes =
        if 0 < a.word_count then max 1 (a.word_count / 200) else 0) ∧
      (a.word_count < 300 →
        ("Thin content (" ++ toString a.word_count ++ " words)") ∈ a.warnings) :=
  claim_C6_amended.1 "https://example.com/blog/p" ⟨200, soupThin150⟩ rfl

open ArticleExtractor in
/-- C6 counterexample: on a non-200 fetch the extractor returns early with
`word_count = 0`, `reading_time_minutes = 0` (not `max(1, 0 // 200) = 1`) and
an empty warnings list (no `Thin content` entry despite `0 < 300`), refuting
the claim's unconditional `reading_time_minutes = max(1, word_count // 200)`
and thin-content warning. -/
theorem claim_C6_counterexample :
    ((extract_single "https://example.com/blog/x" (some resp404)).map
      (fun a => (a.word_count, a.reading_time_minutes, a.warnings))) = some (0, 0, []) ∧
    (0 : Nat) ≠ max 1 ((0 : Nat) / 200) := by
  exact ⟨by decide, by decide⟩

open ArticleExtractor in
theorem generate_issues_title (a : ArticleData) :
    (generate_issues a).title = a.title := rfl

open ArticleExtractor in
theorem apply_reading_time_title (a : ArticleData) :
    (apply_reading_time a).title = a.title := by
  unfold apply_reading_time
  split <;> rfl

open ArticleExtractor in
theorem check_indexability_title (s : Soup) (a : ArticleData) :
    (check_indexability s a).title = a.title := rfl

open ArticleExtractor in
theorem analyze_content_title (s : Soup) (a : ArticleData) :
    (analyze_content s a).title = a.title := rfl

open ArticleExtractor in
theorem extract_from_html_title_ne (s : Soup) (a : ArticleData) (h : a.title ≠ "") :
    (extract_from_html s a).title = a.title := by
  have hb : (a.title == "") = false := beq_eq_false_iff_ne.mpr h
  simp [extract_from_html, hb]

open ArticleExtractor in
theorem extract_from_html_title_fallback (s : Soup) (a : ArticleData) (t : String)
    (h : a.title = "") (h1 : s.h1Texts = []) (ht : s.titleTagText = some t) :
    (extract_from_html s a).title = pyStrip t := by
  simp [extract_from_html, h, h1, ht]

set_option maxRecDepth 10000 in
open ArticleExtractor in
/-- C7: when a JSON-LD Article-family block is found, its (non-empty)
headline becomes the record's title even when the HTML `<title>` differs;
with no such block, the title falls back to the `<h1>` or `<title>` text.
The final conjuncts run the documented scenario: headline `A` beats title
`B`; without JSON-LD the same page yields `B`. -/
theorem claim_C7 :
    (∀ (url : String) (resp : HTTPResponse) (sd : SchemaData),
      resp.status_code = 200 →
      extract_from_jsonld resp.soup.jsonldBlocks = some sd →
      sd.title ≠ "" →
      ∃ a, extract_single url (some resp) = some a ∧ a.title = sd.title) ∧
    (∀ (url : String) (resp : HTTPResponse) (t : String),
      resp.status_code = 200 →
      extract_from_jsonld resp.soup.jsonldBlocks = none →
      resp.soup.h1Texts = [] →
      resp.soup.titleTagText = some t →
      ∃ a, extract_single url (some resp) = some a ∧ a.title = pyStrip t) ∧
    ((extract_single "https://example.com/blog/p" (some ⟨200, soupJsonldA⟩)).map
      (fun a => a.title)) = some "A" ∧
    ((extract_single "https://example.com/blog/p" (some ⟨200, soupNoJsonld⟩)).map
      (fun a => a.title)) = some "B" := by
  refine ⟨?_, ?_, by decide, by decide⟩
  · intro url resp sd h hE hne
    unfold extract_single
    dsimp only
    rw [if_neg (by simp [h])]
    refine ⟨_, rfl, ?_⟩
    simp only [generate_issues_title, apply_reading_time_title, check_indexability_title,
      analyze_content_title]
    have h1 : (apply_jsonld resp.soup
        { title := "", url := url, status_code := resp.status_code }).title = sd.title := by
      unfold apply_jsonld
      rw [hE]
    rw [extract_from_html_title_ne _ _ (by rw [h1]; exact hne)]
    exact h1
  · intro url resp t h hE hh1 ht
    unfold extract_single
    dsimp only
    rw [if_neg (by simp [h])]
    refine ⟨_, rfl, ?_⟩
    simp only [generate_issues_title, apply_reading_time_title, check_indexability_title,
      analyze_content_title]
    have h0 : apply_jsonld resp.soup
        { title := "", url := url, status_code := resp.status_code } =
        { title := "", url := url, status_code := resp.status_code } := by
      unfold apply_jsonld
      rw [hE]
    rw [h0]
    exact extract_from_html_title_fallback _ _ t rfl hh1 ht

open ArticleExtractor in
/-- C7 witness: the fallback branch applied to the concrete page without
JSON-LD. -/
theorem claim_C7_witness :
    ∃ a, extract_single "https://example.com/blog/p" (some ⟨200, soupNoJsonld⟩) = some a ∧
      a.title = pyStrip "B" :=
  claim_C7.2.1 "https://example.com/blog/p" ⟨200, soupNoJsonld⟩ "B" rfl rfl rfl rfl
